import Mathlib

/-!
Verification of the water-quality monitoring core of `streamlit_app.py`
(a React dashboard, despite the file name): the risk classification
`getRiskLevel`, the prescriptive-advice rule engine `getPrescriptiveAdvice`,
the stub prediction `predictAmmonia`, the bounded history buffer kept via
`slice(-50)`, and the `stats` aggregation.  Floating-point numbers of the
source are embedded as rationals (`ℚ`); the stochastic jitter of the
prediction is an explicit parameter.
-/

/-- Risk tiers of the dashboard: the `level` strings of `getRiskLevel`. -/
inductive RiskTier where
  | Low
  | Moderate
  | High
deriving DecidableEq, Repr

/-- The record returned by `getRiskLevel` (src/streamlit_app.py:89-93):
a tier plus the three CSS class strings. -/
structure RiskLevel where
  level : RiskTier
  color : String
  bg : String
  border : String
deriving DecidableEq, Repr

/-- `getRiskLevel` (src/streamlit_app.py:89-93): `ammoniaLevel < 0.2` is Low,
else `ammoniaLevel < 0.4` is Moderate, else High. -/
def getRiskLevel (ammoniaLevel : ℚ) : RiskLevel :=
  if ammoniaLevel < 0.2 then
    ⟨RiskTier.Low, "text-green-600", "bg-green-50", "border-green-200"⟩
  else if ammoniaLevel < 0.4 then
    ⟨RiskTier.Moderate, "text-yellow-600", "bg-yellow-50", "border-yellow-200"⟩
  else
    ⟨RiskTier.High, "text-red-600", "bg-red-50", "border-red-200"⟩

/-- One advice record pushed by `getPrescriptiveAdvice`
(src/streamlit_app.py:95-145). -/
structure AdviceEntry where
  priority : String
  icon : String
  message : String
  action : String
deriving DecidableEq, Repr

/-- The entry pushed when both pH and temperature are elevated
(src/streamlit_app.py:99-104). -/
def criticalBothEntry : AdviceEntry :=
  ⟨"High", "🔴",
   "Critical: Both pH and temperature are elevated. Immediate water change recommended (30-40%).",
   "Perform partial water change and increase aeration"⟩

/-- The entry pushed when only pH is elevated (src/streamlit_app.py:106-111). -/
def phElevatedEntry : AdviceEntry :=
  ⟨"Medium", "🟡",
   "pH is elevated. This increases ammonia toxicity.",
   "Add pH buffer or perform gradual water change"⟩

/-- The entry pushed when only temperature is high
(src/streamlit_app.py:113-118). -/
def tempHighEntry : AdviceEntry :=
  ⟨"Medium", "🟡",
   "Water temperature is high. Reduce temperature to prevent ammonia formation.",
   "Increase aeration, reduce feeding, or add cooling system"⟩

/-- The entry pushed when `ammoniaLevel > 0.4` (src/streamlit_app.py:122-127). -/
def ammoniaHighEntry : AdviceEntry :=
  ⟨"High", "🔴",
   "High ammonia detected! Immediate action required.",
   "Stop feeding, perform 40-50% water change, add ammonia neutralizer"⟩

/-- The entry pushed when `ammoniaLevel > 0.2` but not `> 0.4`
(src/streamlit_app.py:129-134). -/
def ammoniaModerateEntry : AdviceEntry :=
  ⟨"Medium", "🟡",
   "Moderate ammonia levels. Monitor closely.",
   "Reduce feeding by 50%, increase monitoring frequency"⟩

/-- The entry pushed when ammonia is acceptable (src/streamlit_app.py:136-141). -/
def ammoniaAcceptableEntry : AdviceEntry :=
  ⟨"Low", "🟢",
   "Water quality is within acceptable range.",
   "Continue regular monitoring and maintenance"⟩

/-- The environmental-condition branch of `getPrescriptiveAdvice`
(src/streamlit_app.py:98-119): the first if/else-if chain, which pushes at
most one entry onto `advice`. -/
def envAdvice (phValue tempValue : ℚ) : List AdviceEntry :=
  if phValue > 8.0 ∧ tempValue > 28.0 then [criticalBothEntry]
  else if phValue > 8.0 then [phElevatedEntry]
  else if tempValue > 28.0 then [tempHighEntry]
  else []

/-- The ammonia-level branch of `getPrescriptiveAdvice`
(src/streamlit_app.py:121-142): the second if/else-if chain, which always
pushes exactly one entry onto `advice`. -/
def ammoniaAdvice (ammoniaLevel : ℚ) : List AdviceEntry :=
  if ammoniaLevel > 0.4 then [ammoniaHighEntry]
  else if ammoniaLevel > 0.2 then [ammoniaModerateEntry]
  else [ammoniaAcceptableEntry]

/-- `getPrescriptiveAdvice` (src/streamlit_app.py:95-145): the `advice` array
receives the environmental entries first, then the ammonia entry. -/
def getPrescriptiveAdvice (phValue tempValue ammoniaLevel : ℚ) : List AdviceEntry :=
  envAdvice phValue tempValue ++ ammoniaAdvice ammoniaLevel

/-- An entry produced by the environmental-condition rule. -/
def isEnvEntry (e : AdviceEntry) : Prop :=
  e = criticalBothEntry ∨ e = phElevatedEntry ∨ e = tempHighEntry

/-- An entry produced by the ammonia-level rule. -/
def isAmmoniaEntry (e : AdviceEntry) : Prop :=
  e = ammoniaHighEntry ∨ e = ammoniaModerateEntry ∨ e = ammoniaAcceptableEntry

instance (e : AdviceEntry) : Decidable (isEnvEntry e) := by
  unfold isEnvEntry; infer_instance

instance (e : AdviceEntry) : Decidable (isAmmoniaEntry e) := by
  unfold isAmmoniaEntry; infer_instance

/-- The raw linear surrogate inside `predictAmmonia`
(src/streamlit_app.py:60-67): `0.15 + (pH - 7.0) * 0.08 +
(temp - 25.0) * 0.015 + jitter`, where the code draws
`jitter = Math.random() * 0.05`; here the jitter is an explicit parameter. -/
def rawPrediction (phValue tempValue jitter : ℚ) : ℚ :=
  0.15 + (phValue - 7.0) * 0.08 + (tempValue - 25.0) * 0.015 + jitter

/-- `predictAmmonia` (src/streamlit_app.py:60-68): the raw surrogate clamped
at zero by `Math.max(0, predicted)`. -/
def predictAmmonia (phValue tempValue jitter : ℚ) : ℚ :=
  max 0 (rawPrediction phValue tempValue jitter)

/-- One reading of `historicalData`: timestamp plus the `pH`, `temperature`
and `ammonia` fields (src/streamlit_app.py:79-85). -/
structure Reading where
  timestamp : Nat
  pH : ℚ
  temperature : ℚ
  ammonia : ℚ
deriving DecidableEq, Repr

/-- The last `n` elements of a list: `arr.slice(-n)` for positive `n`
(the code only uses `n = 50`, src/streamlit_app.py:52 and 85). -/
def takeLast (n : Nat) (l : List α) : List α :=
  l.drop (l.length - n)

/-- The append step of `handlePredict` (src/streamlit_app.py:79-85):
`[...prev, reading].slice(-N)` with capacity `N` (50 in the code). -/
def appendReading (N : Nat) (store : List Reading) (r : Reading) : List Reading :=
  takeLast N (store ++ [r])

/-- The store contents after appending each reading of `rs` in order to an
initially empty store. -/
def seriesFold (N : Nat) (rs : List Reading) : List Reading :=
  rs.foldl (appendReading N) []

/-- The record built by `stats` (src/streamlit_app.py:151-156), without the
`toFixed` display formatting (presentation only). -/
structure AggregateStats where
  avgPh : ℚ
  avgTemp : ℚ
  avgAmmonia : ℚ
  maxAmmonia : ℚ
deriving DecidableEq, Repr

/-- `stats` (src/streamlit_app.py:151-156): `null` when `historicalData` is
empty, otherwise the three `reduce`-sums divided by the length plus
`Math.max(...historicalData.map(d => d.ammonia))`, which on a non-empty list
is the fold of binary max over the mapped values. -/
def statsOf : List Reading → Option AggregateStats
  | [] => none
  | d :: ds =>
    some
      { avgPh := ((d :: ds).map Reading.pH).sum / ((d :: ds).length : ℚ)
        avgTemp := ((d :: ds).map Reading.temperature).sum / ((d :: ds).length : ℚ)
        avgAmmonia := ((d :: ds).map Reading.ammonia).sum / ((d :: ds).length : ℚ)
        maxAmmonia := (ds.map Reading.ammonia).foldl max d.ammonia }

/-- The error condition of §4.1 of the spec. -/
inductive ModelError where
  | modelUnavailable
deriving DecidableEq, Repr

/-- Modelled from the spec: the model-loading variant of the prediction
provider is not under src/ (src/ holds only the closed-form stub
`predictAmmonia`).  Per §4.1, `predict` wraps a loaded model when one is
available and must signal a `ModelUnavailable` condition, rather than
silently returning a default, when no model is available. -/
def predictWithModel (model : Option (ℚ → ℚ → ℚ)) (phValue tempValue : ℚ) :
    Except ModelError ℚ :=
  match model with
  | none => Except.error ModelError.modelUnavailable
  | some f => Except.ok (max 0 (f phValue tempValue))

/-- Modelled from the spec: the caller of `predict` in the model-loading
variant (not under src/).  Per §4.1 and §7, on `ModelUnavailable` the caller
surfaces the condition to the operator and refuses to proceed: no reading is
produced or appended.  On success it appends the new reading as
`handlePredict` does. -/
def runPredictionCycle (model : Option (ℚ → ℚ → ℚ)) (phValue tempValue : ℚ)
    (t : Nat) (store : List Reading) : List Reading × Option ModelError :=
  match predictWithModel model phValue tempValue with
  | Except.error e => (store, some e)
  | Except.ok a => (appendReading 50 store ⟨t, phValue, tempValue, a⟩, none)

theorem length_takeLast (n : Nat) (l : List α) : (takeLast n l).length = min n l.length := by
  simp [takeLast]
  omega

theorem takeLast_append_right (n : Nat) (a b : List α) (h : n ≤ b.length) :
    takeLast n (a ++ b) = takeLast n b := by
  unfold takeLast
  rw [List.length_append, show a.length + b.length - n = a.length + (b.length - n) by omega,
    List.drop_append]

theorem takeLast_takeLast_append (n : Nat) (l r : List α) :
    takeLast n (takeLast n l ++ r) = takeLast n (l ++ r) := by
  rcases le_or_lt l.length n with h | h
  · have hl : takeLast n l = l := by
      unfold takeLast
      rw [Nat.sub_eq_zero_of_le h, List.drop_zero]
    rw [hl]
  · have hsplit : l.take (l.length - n) ++ takeLast n l = l := List.take_append_drop _ l
    have hlen : (takeLast n l).length = n := by
      rw [length_takeLast]
      omega
    have h2 : n ≤ (takeLast n l ++ r).length := by
      rw [List.length_append, hlen]
      omega
    conv_rhs => rw [← hsplit]
    rw [List.append_assoc, takeLast_append_right _ _ _ h2]

theorem seriesFold_aux (N : Nat) (rs : List Reading) :
    ∀ init : List Reading,
      rs.foldl (appendReading N) (takeLast N init) = takeLast N (init ++ rs) := by
  induction rs with
  | nil =>
    intro init
    simp [List.foldl_nil]
  | cons r rs ih =>
    intro init
    rw [List.foldl_cons,
      show appendReading N (takeLast N init) r = takeLast N (init ++ [r]) from
        takeLast_takeLast_append N init [r],
      ih (init ++ [r])]
    simp

theorem seriesFold_eq_takeLast (N : Nat) (rs : List Reading) :
    seriesFold N rs = takeLast N rs := by
  have h := seriesFold_aux N rs []
  simpa [seriesFold, takeLast] using h

theorem le_foldl_max (l : List ℚ) : ∀ a : ℚ, a ≤ l.foldl max a := by
  induction l with
  | nil =>
    intro a
    simp
  | cons x l ih =>
    intro a
    rw [List.foldl_cons]
    exact le_trans (le_max_left a x) (ih (max a x))

theorem mem_le_foldl_max (l : List ℚ) : ∀ (a x : ℚ), x ∈ l → x ≤ l.foldl max a := by
  induction l with
  | nil =>
    intro a x hx
    simp at hx
  | cons y l ih =>
    intro a x hx
    rw [List.foldl_cons]
    rcases List.mem_cons.mp hx with h | h
    · subst h
      exact le_trans (le_max_right a x) (le_foldl_max l (max a x))
    · exact ih (max a y) x h

theorem foldl_max_mem (l : List ℚ) : ∀ a : ℚ, l.foldl max a = a ∨ l.foldl max a ∈ l := by
  induction l with
  | nil =>
    intro a
    exact Or.inl rfl
  | cons y l ih =>
    intro a
    rw [List.foldl_cons]
    rcases ih (max a y) with h | h
    · rcases max_choice a y with hm | hm
      · exact Or.inl (by rw [h, hm])
      · exact Or.inr (by rw [h, hm]; exact List.mem_cons_self y l)
    · exact Or.inr (List.mem_cons_of_mem y h)

/-- C1: `classify(a)` is Low iff `a < 0.2`, Moderate iff `0.2 ≤ a < 0.4`, and
High iff `a ≥ 0.4`; boundaries are inclusive on the lower bound of each tier,
so `classify(0.2)` is Moderate and `classify(0.4)` is High. -/
theorem classify_threshold_boundaries (a : ℚ) :
    ((getRiskLevel a).level = RiskTier.Low ↔ a < 0.2) ∧
    ((getRiskLevel a).level = RiskTier.Moderate ↔ 0.2 ≤ a ∧ a < 0.4) ∧
    ((getRiskLevel a).level = RiskTier.High ↔ 0.4 ≤ a) ∧
    (getRiskLevel 0.2).level = RiskTier.Moderate ∧
    (getRiskLevel 0.4).level = RiskTier.High := by
  have hcase : (a < 0.2 ∧ (getRiskLevel a).level = RiskTier.Low) ∨
      (0.2 ≤ a ∧ a < 0.4 ∧ (getRiskLevel a).level = RiskTier.Moderate) ∨
      (0.4 ≤ a ∧ (getRiskLevel a).level = RiskTier.High) := by
    unfold getRiskLevel
    split_ifs with h1 h2
    · exact Or.inl ⟨h1, rfl⟩
    · exact Or.inr (Or.inl ⟨le_of_not_lt h1, h2, rfl⟩)
    · exact Or.inr (Or.inr ⟨le_of_not_lt h2, rfl⟩)
  refine ⟨?_, ?_, ?_, by norm_num [getRiskLevel], by norm_num [getRiskLevel]⟩
  · constructor
    · intro h
      rcases hcase with ⟨h1, _⟩ | ⟨_, _, hl⟩ | ⟨_, hl⟩
      · exact h1
      · exact RiskTier.noConfusion (h.symm.trans hl)
      · exact RiskTier.noConfusion (h.symm.trans hl)
    · intro h
      rcases hcase with ⟨_, hl⟩ | ⟨h2, _, _⟩ | ⟨h2, _⟩
      · exact hl
      · linarith
      · linarith
  · constructor
    · intro h
      rcases hcase with ⟨_, hl⟩ | ⟨h1, h2, _⟩ | ⟨_, hl⟩
      · exact RiskTier.noConfusion (h.symm.trans hl)
      · exact ⟨h1, h2⟩
      · exact RiskTier.noConfusion (h.symm.trans hl)
    · intro h
      rcases hcase with ⟨h1, _⟩ | ⟨_, _, hl⟩ | ⟨h2, _⟩
      · linarith [h.1]
      · exact hl
      · linarith [h.2]
  · constructor
    · intro h
      rcases hcase with ⟨_, hl⟩ | ⟨_, _, hl⟩ | ⟨h2, _⟩
      · exact RiskTier.noConfusion (h.symm.trans hl)
      · exact RiskTier.noConfusion (h.symm.trans hl)
      · exact h2
    · intro h
      rcases hcase with ⟨h1, _⟩ | ⟨_, h2, _⟩ | ⟨_, hl⟩
      · linarith
      · linarith
      · exact hl

/-- C1 witness: the classification evaluated concretely on one point of each
tier and on the two boundary points. -/
theorem classify_threshold_boundaries_witness :
    (getRiskLevel 0.1).level = RiskTier.Low ∧
    (getRiskLevel 0.3).level = RiskTier.Moderate ∧
    (getRiskLevel 0.5).level = RiskTier.High ∧
    (getRiskLevel 0.2).level = RiskTier.Moderate ∧
    (getRiskLevel 0.4).level = RiskTier.High :=
  ⟨(classify_threshold_boundaries 0.1).1.mpr (by norm_num),
   (classify_threshold_boundaries 0.3).2.1.mpr (by norm_num),
   (classify_threshold_boundaries 0.5).2.2.1.mpr (by norm_num),
   (classify_threshold_boundaries 0.2).2.2.2.1,
   (classify_threshold_boundaries 0.4).2.2.2.2⟩

/-- C2: for every input triple, `advise` returns either one or two entries,
and whenever an environmental entry is present it precedes the ammonia
entry. -/
theorem advise_count_and_order (phValue tempValue ammoniaLevel : ℚ) :
    ((getPrescriptiveAdvice phValue tempValue ammoniaLevel).length = 1 ∨
      (getPrescriptiveAdvice phValue tempValue ammoniaLevel).length = 2) ∧
    ((∃ amm, getPrescriptiveAdvice phValue tempValue ammoniaLevel = [amm] ∧
        isAmmoniaEntry amm) ∨
      (∃ env amm, getPrescriptiveAdvice phValue tempValue ammoniaLevel = [env, amm] ∧
        isEnvEntry env ∧ isAmmoniaEntry amm)) := by
  have henv : envAdvice phValue tempValue = [] ∨
      ∃ e, envAdvice phValue tempValue = [e] ∧ isEnvEntry e := by
    unfold envAdvice
    split_ifs
    · exact Or.inr ⟨criticalBothEntry, rfl, Or.inl rfl⟩
    · exact Or.inr ⟨phElevatedEntry, rfl, Or.inr (Or.inl rfl)⟩
    · exact Or.inr ⟨tempHighEntry, rfl, Or.inr (Or.inr rfl)⟩
    · exact Or.inl rfl
  have hamm : ∃ e, ammoniaAdvice ammoniaLevel = [e] ∧ isAmmoniaEntry e := by
    unfold ammoniaAdvice
    split_ifs
    · exact ⟨ammoniaHighEntry, rfl, Or.inl rfl⟩
    · exact ⟨ammoniaModerateEntry, rfl, Or.inr (Or.inl rfl)⟩
    · exact ⟨ammoniaAcceptableEntry, rfl, Or.inr (Or.inr rfl)⟩
  obtain ⟨amm, hae, hai⟩ := hamm
  rcases henv with he | ⟨env, hee, hei⟩
  · exact ⟨Or.inl (by simp [getPrescriptiveAdvice, he, hae]),
      Or.inl ⟨amm, by simp [getPrescriptiveAdvice, he, hae], hai⟩⟩
  · exact ⟨Or.inr (by simp [getPrescriptiveAdvice, hee, hae]),
      Or.inr ⟨env, amm, by simp [getPrescriptiveAdvice, hee, hae], hei, hai⟩⟩

/-- C2 witness: the advice list evaluated at one input with no environmental
entry and one with both entries. -/
theorem advise_count_and_order_witness :
    ((getPrescriptiveAdvice 7.5 25 0.1).length = 1 ∨
      (getPrescriptiveAdvice 7.5 25 0.1).length = 2) ∧
    ((getPrescriptiveAdvice 8.5 29 0.5).length = 1 ∨
      (getPrescriptiveAdvice 8.5 29 0.5).length = 2) :=
  ⟨(advise_count_and_order 7.5 25 0.1).1, (advise_count_and_order 8.5 29 0.5).1⟩

/-- C3: the environmental rule emits at most one entry, chosen by first match
over mutually exclusive branches with strict comparisons: both thresholds
exceeded gives the High critical entry, else pH elevated gives the Medium pH
entry, else temperature high gives the Medium temperature entry, else
nothing. -/
theorem env_rule_first_match (phValue tempValue : ℚ) :
    (phValue > 8.0 ∧ tempValue > 28.0 →
      envAdvice phValue tempValue = [criticalBothEntry]) ∧
    (phValue > 8.0 ∧ ¬ tempValue > 28.0 →
      envAdvice phValue tempValue = [phElevatedEntry]) ∧
    (¬ phValue > 8.0 ∧ tempValue > 28.0 →
      envAdvice phValue tempValue = [tempHighEntry]) ∧
    (¬ phValue > 8.0 ∧ ¬ tempValue > 28.0 →
      envAdvice phValue tempValue = []) ∧
    (envAdvice phValue tempValue).length ≤ 1 ∧
    criticalBothEntry.priority = "High" ∧
    phElevatedEntry.priority = "Medium" ∧
    tempHighEntry.priority = "Medium" := by
  refine ⟨?_, ?_, ?_, ?_, ?_, rfl, rfl, rfl⟩ <;>
    · unfold envAdvice
      split_ifs with h1 h2 h3 <;> simp_all

/-- C3 witness: each environmental branch evaluated at a concrete input. -/
theorem env_rule_first_match_witness :
    envAdvice 8.5 29 = [criticalBothEntry] ∧
    envAdvice 8.5 27 = [phElevatedEntry] ∧
    envAdvice 7.5 29 = [tempHighEntry] ∧
    envAdvice 7.5 27 = [] :=
  ⟨(env_rule_first_match 8.5 29).1 ⟨by norm_num, by norm_num⟩,
   (env_rule_first_match 8.5 27).2.1 ⟨by norm_num, by norm_num⟩,
   (env_rule_first_match 7.5 29).2.2.1 ⟨by norm_num, by norm_num⟩,
   (env_rule_first_match 7.5 27).2.2.2.1 ⟨by norm_num, by norm_num⟩⟩

/-- C4: the series store retains exactly the most recent `min(count, N)`
readings in insertion order, its length never exceeds `N`, and with
capacity 3 appending five readings in order leaves exactly the last three. -/
theorem series_store_bounded (N : Nat) (rs : List Reading) :
    seriesFold N rs = takeLast N rs ∧
    (seriesFold N rs).length = min N rs.length ∧
    (seriesFold N rs).length ≤ N ∧
    (∀ r1 r2 r3 r4 r5 : Reading,
      seriesFold 3 [r1, r2, r3, r4, r5] = [r3, r4, r5]) := by
  refine ⟨seriesFold_eq_takeLast N rs, ?_, ?_, ?_⟩
  · rw [seriesFold_eq_takeLast, length_takeLast]
  · rw [seriesFold_eq_takeLast, length_takeLast]
    omega
  · intro r1 r2 r3 r4 r5
    simp [seriesFold, appendReading, takeLast, List.foldl]

/-- C5: the prediction is clamped at zero, so it is never negative for any
inputs, including pH 14 and temperature 40; whenever the raw surrogate is
negative the returned value is exactly zero. -/
theorem predict_clamped_nonneg (phValue tempValue jitter : ℚ) :
    0 ≤ predictAmmonia phValue tempValue jitter ∧
    (rawPrediction phValue tempValue jitter < 0 →
      predictAmmonia phValue tempValue jitter = 0) ∧
    0 ≤ predictAmmonia 14 40 jitter :=
  ⟨le_max_left 0 _, fun h => max_eq_left (le_of_lt h), le_max_left 0 _⟩

/-- C5 witness: at pH 0, temperature 0, jitter 0 the raw surrogate is
negative and the prediction is exactly zero. -/
theorem predict_clamped_nonneg_witness :
    0 ≤ predictAmmonia 0 0 0 ∧ predictAmmonia 0 0 0 = 0 :=
  ⟨(predict_clamped_nonneg 0 0 0).1,
   (predict_clamped_nonneg 0 0 0).2.1 (by norm_num [rawPrediction])⟩

/-- C6: `aggregate` is only defined on a non-empty store; there it yields the
arithmetic means of pH, temperature and ammonia and the maximum ammonia over
the full retained window; over ammonia values 0.1, 0.3, 0.5 the mean is 0.3
and the maximum is 0.5. -/
theorem aggregate_mean_max_nonempty :
    statsOf [] = none ∧
    (∀ d ds, ∃ s, statsOf (d :: ds) = some s ∧
      s.avgPh = ((d :: ds).map Reading.pH).sum / ((d :: ds).length : ℚ) ∧
      s.avgTemp = ((d :: ds).map Reading.temperature).sum / ((d :: ds).length : ℚ) ∧
      s.avgAmmonia = ((d :: ds).map Reading.ammonia).sum / ((d :: ds).length : ℚ) ∧
      (∀ r ∈ d :: ds, r.ammonia ≤ s.maxAmmonia) ∧
      (∃ r ∈ d :: ds, r.ammonia = s.maxAmmonia)) ∧
    (∃ s, statsOf [⟨0, 7, 25, 0.1⟩, ⟨1, 7, 25, 0.3⟩, ⟨2, 7, 25, 0.5⟩] = some s ∧
      s.avgAmmonia = 0.3 ∧ s.maxAmmonia = 0.5) := by
  refine ⟨rfl, ?_, ?_⟩
  · intro d ds
    refine ⟨_, rfl, rfl, rfl, rfl, ?_, ?_⟩
    · intro r hr
      rcases List.mem_cons.mp hr with h | h
      · subst h
        exact le_foldl_max (ds.map Reading.ammonia) r.ammonia
      · exact mem_le_foldl_max (ds.map Reading.ammonia) d.ammonia r.ammonia
          (List.mem_map_of_mem Reading.ammonia h)
    · rcases foldl_max_mem (ds.map Reading.ammonia) d.ammonia with h | h
      · exact ⟨d, List.mem_cons_self d ds, h.symm⟩
      · obtain ⟨r, hr, hra⟩ := List.mem_map.mp h
        exact ⟨r, List.mem_cons_of_mem d hr, hra⟩
  · refine ⟨_, rfl, ?_, ?_⟩
    · norm_num [List.sum_cons]
    · norm_num [List.foldl, max_def]

/-- C6 witness: the second conjunct applied to a concrete singleton store. -/
theorem aggregate_mean_max_nonempty_witness :
    ∃ s, statsOf [⟨0, 7, 25, 0.1⟩] = some s ∧
      s.avgPh = (([(⟨0, 7, 25, 0.1⟩ : Reading)].map Reading.pH).sum /
        (([(⟨0, 7, 25, 0.1⟩ : Reading)].length : ℚ))) ∧
      s.avgTemp = (([(⟨0, 7, 25, 0.1⟩ : Reading)].map Reading.temperature).sum /
        (([(⟨0, 7, 25, 0.1⟩ : Reading)].length : ℚ))) ∧
      s.avgAmmonia = (([(⟨0, 7, 25, 0.1⟩ : Reading)].map Reading.ammonia).sum /
        (([(⟨0, 7, 25, 0.1⟩ : Reading)].length : ℚ))) ∧
      (∀ r ∈ [(⟨0, 7, 25, 0.1⟩ : Reading)], r.ammonia ≤ s.maxAmmonia) ∧
      (∃ r ∈ [(⟨0, 7, 25, 0.1⟩ : Reading)], r.ammonia = s.maxAmmonia) :=
  aggregate_mean_max_nonempty.2.1 ⟨0, 7, 25, 0.1⟩ []

/-- C7: with no model available, `predict` signals `ModelUnavailable` instead
of returning any value, and the prediction cycle surfaces the condition and
leaves the store untouched. -/
theorem model_unavailable_signalled :
    (∀ phValue tempValue : ℚ, predictWithModel none phValue tempValue =
      Except.error ModelError.modelUnavailable) ∧
    (∀ (phValue tempValue a : ℚ),
      predictWithModel none phValue tempValue ≠ Except.ok a) ∧
    (∀ (phValue tempValue : ℚ) (t : Nat) (store : List Reading),
      runPredictionCycle none phValue tempValue t store =
        (store, some ModelError.modelUnavailable)) := by
  refine ⟨fun _ _ => rfl, ?_, fun _ _ _ _ => rfl⟩
  intro phValue tempValue a h
  simp [predictWithModel] at h

/-- C7 witness: the missing-model behavior evaluated at a concrete input. -/
theorem model_unavailable_signalled_witness :
    predictWithModel none 7.5 28 = Except.error ModelError.modelUnavailable ∧
    runPredictionCycle none 7.5 28 0 [] = ([], some ModelError.modelUnavailable) :=
  ⟨model_unavailable_signalled.1 7.5 28, model_unavailable_signalled.2.2 7.5 28 0 []⟩

/-- C8: `advise(8.5, 29.0, 0.5)` returns exactly the High critical
both-elevated entry followed by the High stop-feeding ammonia entry. -/
theorem advise_critical_scenario :
    getPrescriptiveAdvice 8.5 29 0.5 = [criticalBothEntry, ammoniaHighEntry] ∧
    criticalBothEntry.priority = "High" ∧
    ammoniaHighEntry.priority = "High" ∧
    ammoniaHighEntry.action =
      "Stop feeding, perform 40-50% water change, add ammonia neutralizer" :=
  ⟨by norm_num [getPrescriptiveAdvice, envAdvice, ammoniaAdvice], rfl, rfl, rfl⟩

/-- C9: at the environmental thresholds the strict comparisons do not fire:
`advise(8.0, 28.0, 0.1)` has no environmental entry and exactly one Low
ammonia entry, and `advise(7.5, 28.0, 0.15)` is one Low acceptable entry. -/
theorem advise_boundary_strict :
    getPrescriptiveAdvice 8 28 0.1 = [ammoniaAcceptableEntry] ∧
    envAdvice 8 28 = [] ∧
    ammoniaAcceptableEntry.priority = "Low" ∧
    isAmmoniaEntry ammoniaAcceptableEntry ∧
    getPrescriptiveAdvice 7.5 28 0.15 = [ammoniaAcceptableEntry] ∧
    envAdvice 7.5 28 = [] :=
  ⟨by norm_num [getPrescriptiveAdvice, envAdvice, ammoniaAdvice],
   by norm_num [envAdvice],
   rfl, Or.inr (Or.inr rfl),
   by norm_num [getPrescriptiveAdvice, envAdvice, ammoniaAdvice],
   by norm_num [envAdvice]⟩

/-- C10: at the tier boundaries the classification (inclusive lower bounds)
and the ammonia advice rule (strict comparisons) disagree in severity:
ammonia 0.4 classifies High but gets the Medium monitoring entry, and
ammonia 0.2 classifies Moderate but gets the Low acceptable entry. -/
theorem boundary_severity_mismatch :
    (getRiskLevel 0.4).level = RiskTier.High ∧
    ammoniaAdvice 0.4 = [ammoniaModerateEntry] ∧
    ammoniaModerateEntry.priority = "Medium" ∧
    getPrescriptiveAdvice 7.5 25 0.4 = [ammoniaModerateEntry] ∧
    (getRiskLevel 0.2).level = RiskTier.Moderate ∧
    ammoniaAdvice 0.2 = [ammoniaAcceptableEntry] ∧
    ammoniaAcceptableEntry.priority = "Low" ∧
    getPrescriptiveAdvice 7.5 25 0.2 = [ammoniaAcceptableEntry] :=
  ⟨by norm_num [getRiskLevel], by norm_num [ammoniaAdvice], rfl,
   by norm_num [getPrescriptiveAdvice, envAdvice, ammoniaAdvice],
   by norm_num [getRiskLevel], by norm_num [ammoniaAdvice], rfl,
   by norm_num [getPrescriptiveAdvice, envAdvice, ammoniaAdvice]⟩
